import Mathlib

/-!
Verification of the native stub `native-lib.cpp` in the
`android/pinitddummy32` module.  The file defines one exported JNI entry
point, `Java_com_com_penumbraos_pinitddummy32_dummyNativeFunction`, whose
body is the single statement `return 0;`.

We embed the code at two levels:

* a direct shallow embedding of the function as a Lean function (and a
  state-passing variant, since C functions may in general touch global
  state);
* a deep embedding of the function body as a term of a small C statement
  language (with branches, loops, stores and pointer dereferences), so
  that the syntactic facts used by the claims — the body contains no
  branch, no loop, no store and no pointer access — are facts about a
  language in which those constructs exist, together with a fuel-based
  operational semantics over an explicit memory.
-/

/-- A C pointer: either null (`none`) or a heap address.  Address `a`
is rendered as the nonzero integer `a + 1` so that `none` alone maps
to the null value `0`. -/
def CPtr : Type := Option Nat

/-- The `JNIEnv*` first parameter of a JNI entry point. -/
def JNIEnvPtr : Type := CPtr

/-- The `jobject` receiver parameter of a JNI entry point. -/
def JObject : Type := CPtr

/-- The integer value a pointer evaluates to in C: null is `0`, the
address `a` is the nonzero value `a + 1`. -/
def ptrToInt : CPtr → Int
  | none => 0
  | some a => Int.ofNat a + 1

/-- Direct shallow embedding of the exported entry point
`Java_com_com_penumbraos_pinitddummy32_dummyNativeFunction`
(native-lib.cpp, lines 5-10): it ignores both parameters and its body is
`return 0;`. -/
def Java_com_com_penumbraos_pinitddummy32_dummyNativeFunction
    (env : JNIEnvPtr) (thisObj : JObject) : Int := 0

/-- State-passing embedding of the same entry point over an arbitrary
type `S` of program-visible state (the environment behind the `JNIEnv*`,
the receiver object, globals): the body `return 0;` mentions no state,
so the state passes through unchanged and the result is `0`. -/
def dummyNativeFunctionSt {S : Type} (σ : S) (env : JNIEnvPtr)
    (thisObj : JObject) : S × Int :=
  (σ, 0)

/-- Expressions of a small C fragment: integer literals, the two
parameters of the entry point, and pointer dereference. -/
inductive CExpr : Type where
  | intLit (v : Int)
  | paramEnv
  | paramThis
  | derefExpr (p : CExpr)
  deriving DecidableEq, Repr

/-- Statements of the C fragment: `return e;`, sequencing, `if`/`else`,
store through a pointer, and `while` loops. -/
inductive CStmt : Type where
  | ret (e : CExpr)
  | seq (a b : CStmt)
  | ite (c : CExpr) (t f : CStmt)
  | store (p v : CExpr)
  | loopWhile (c : CExpr) (b : CStmt)
  deriving DecidableEq, Repr

/-- Deep embedding of the body of the entry point (native-lib.cpp,
lines 8-9): the single statement `return 0;`. -/
def dummyNativeFunctionBody : CStmt := CStmt.ret (CExpr.intLit 0)

/-- The exported symbols of `native-lib.cpp`: exactly the one
`extern "C"` function defined at lines 5-10. -/
def nativeLibExports : List String :=
  ["Java_com_com_penumbraos_pinitddummy32_dummyNativeFunction"]

/-- Evaluation of expressions over a memory and the two parameter
values.  Dereferencing the null value `0` is an error. -/
def evalExpr (mem : Nat → Int) (env thisObj : CPtr) : CExpr → Except String Int
  | CExpr.intLit v => Except.ok v
  | CExpr.paramEnv => Except.ok (ptrToInt env)
  | CExpr.paramThis => Except.ok (ptrToInt thisObj)
  | CExpr.derefExpr p =>
    match evalExpr mem env thisObj p with
    | Except.error msg => Except.error msg
    | Except.ok v =>
      if v = 0 then Except.error "null pointer dereference"
      else Except.ok (mem v.toNat)

/-- Fuel-based big-step execution of a statement.  The result is the
final memory together with `some r` when a `return r` was executed and
`none` when the statement fell through.  Running out of fuel, or a null
pointer access, is an error. -/
def execStmt (env thisObj : CPtr) :
    Nat → CStmt → (Nat → Int) → Except String ((Nat → Int) × Option Int)
  | 0, _, _ => Except.error "fuel exhausted"
  | _ + 1, CStmt.ret e, mem =>
    match evalExpr mem env thisObj e with
    | Except.error msg => Except.error msg
    | Except.ok v => Except.ok (mem, some v)
  | fuel + 1, CStmt.seq a b, mem =>
    match execStmt env thisObj fuel a mem with
    | Except.error msg => Except.error msg
    | Except.ok (mem1, some r) => Except.ok (mem1, some r)
    | Except.ok (mem1, none) => execStmt env thisObj fuel b mem1
  | fuel + 1, CStmt.ite c t f, mem =>
    match evalExpr mem env thisObj c with
    | Except.error msg => Except.error msg
    | Except.ok v =>
      if v = 0 then execStmt env thisObj fuel f mem
      else execStmt env thisObj fuel t mem
  | _ + 1, CStmt.store p v, mem =>
    match evalExpr mem env thisObj p, evalExpr mem env thisObj v with
    | Except.error msg, _ => Except.error msg
    | _, Except.error msg => Except.error msg
    | Except.ok pv, Except.ok vv =>
      if pv = 0 then Except.error "null pointer store"
      else Except.ok (fun n => if n = pv.toNat then vv else mem n, none)
  | fuel + 1, CStmt.loopWhile c b, mem =>
    match evalExpr mem env thisObj c with
    | Except.error msg => Except.error msg
    | Except.ok v =>
      if v = 0 then Except.ok (mem, none)
      else
        match execStmt env thisObj fuel b mem with
        | Except.error msg => Except.error msg
        | Except.ok (mem1, some r) => Except.ok (mem1, some r)
        | Except.ok (mem1, none) =>
          execStmt env thisObj fuel (CStmt.loopWhile c b) mem1

/-- Whether an expression mentions either parameter of the entry point. -/
def exprUsesParam : CExpr → Bool
  | CExpr.intLit _ => false
  | CExpr.paramEnv => true
  | CExpr.paramThis => true
  | CExpr.derefExpr p => exprUsesParam p

/-- Whether an expression contains a pointer dereference. -/
def exprHasDeref : CExpr → Bool
  | CExpr.intLit _ => false
  | CExpr.paramEnv => false
  | CExpr.paramThis => false
  | CExpr.derefExpr _ => true

/-- Whether a statement contains a conditional branch (an `if` or the
test of a `while`). -/
def stmtHasBranch : CStmt → Bool
  | CStmt.ret _ => false
  | CStmt.seq a b => stmtHasBranch a || stmtHasBranch b
  | CStmt.ite _ _ _ => true
  | CStmt.store _ _ => false
  | CStmt.loopWhile _ _ => true

/-- Whether a statement contains a loop. -/
def stmtHasLoop : CStmt → Bool
  | CStmt.ret _ => false
  | CStmt.seq a b => stmtHasLoop a || stmtHasLoop b
  | CStmt.ite _ t f => stmtHasLoop t || stmtHasLoop f
  | CStmt.store _ _ => false
  | CStmt.loopWhile _ _ => true

/-- Whether a statement contains a store (a write to memory). -/
def stmtHasStore : CStmt → Bool
  | CStmt.ret _ => false
  | CStmt.seq a b => stmtHasStore a || stmtHasStore b
  | CStmt.ite _ t f => stmtHasStore t || stmtHasStore f
  | CStmt.store _ _ => true
  | CStmt.loopWhile _ b => stmtHasStore b

/-- Whether a statement mentions either parameter. -/
def stmtUsesParam : CStmt → Bool
  | CStmt.ret e => exprUsesParam e
  | CStmt.seq a b => stmtUsesParam a || stmtUsesParam b
  | CStmt.ite c t f => exprUsesParam c || stmtUsesParam t || stmtUsesParam f
  | CStmt.store p v => exprUsesParam p || exprUsesParam v
  | CStmt.loopWhile c b => exprUsesParam c || stmtUsesParam b

/-- Whether a statement contains a pointer dereference. -/
def stmtHasDeref : CStmt → Bool
  | CStmt.ret e => exprHasDeref e
  | CStmt.seq a b => stmtHasDeref a || stmtHasDeref b
  | CStmt.ite c t f => exprHasDeref c || stmtHasDeref t || stmtHasDeref f
  | CStmt.store _ _ => true
  | CStmt.loopWhile c b => exprHasDeref c || stmtHasDeref b

/-- Repeating the call `n` times from state `σ`, returning the final
state and the result of the last call (`0` calls return the default
result `0` on the untouched state). -/
def callNTimes {S : Type} (env : JNIEnvPtr) (thisObj : JObject) :
    Nat → S → S × Int
  | 0, σ => (σ, 0)
  | 1, σ => dummyNativeFunctionSt σ env thisObj
  | n + 2, σ =>
    callNTimes env thisObj (n + 1) (dummyNativeFunctionSt σ env thisObj).1

/-- An interleaved schedule of invocations over a shared state `S`: each
element of the list is one invocation (with its own parameters), applied
atomically in list order; the result is the final state and the list of
returned values. -/
def runSchedule {S : Type} : S → List (JNIEnvPtr × JObject) → S × List Int
  | σ, [] => (σ, [])
  | σ, (env, thisObj) :: rest =>
    match dummyNativeFunctionSt σ env thisObj with
    | (σ1, r) =>
      match runSchedule σ1 rest with
      | (σ2, rs) => (σ2, r :: rs)

/-- Helper: the fuel-based executor runs the actual body `return 0;` to
`Except.ok (mem, some 0)` whenever at least one unit of fuel is
available, on any parameters and any memory, leaving the memory
untouched. -/
theorem execStmt_dummyBody (env thisObj : CPtr) (mem : Nat → Int) (fuel : Nat) :
    execStmt env thisObj (fuel + 1) dummyNativeFunctionBody mem =
      Except.ok (mem, some 0) := by
  rfl

/-- C1: every invocation of the entry point, on any `JNIEnv*` and any
receiver object, returns exactly the literal integer `0`. -/
theorem dummyNativeFunction_returns_zero (env : JNIEnvPtr) (thisObj : JObject) :
    Java_com_com_penumbraos_pinitddummy32_dummyNativeFunction env thisObj = 0 :=
  rfl

/-- C2: an invocation has no side effects: over any type of
program-visible state the call is the identity on the state (returning
`0`), the body contains no store, and executing the body leaves the
memory exactly as it was. -/
theorem dummyNativeFunction_no_side_effects :
    (∀ (S : Type) (σ : S) (env : JNIEnvPtr) (thisObj : JObject),
        dummyNativeFunctionSt σ env thisObj = (σ, 0)) ∧
    stmtHasStore dummyNativeFunctionBody = false ∧
    (∀ (env thisObj : CPtr) (mem : Nat → Int) (fuel : Nat),
        execStmt env thisObj (fuel + 1) dummyNativeFunctionBody mem =
          Except.ok (mem, some 0)) :=
  ⟨fun _ _ _ _ => rfl, rfl, fun _ _ _ _ => rfl⟩

/-- C3: the entry point cannot fail: executing its body in the
`Except`-valued semantics yields `Except.ok` with result `0` for every
input, and is never an `Except.error`. -/
theorem dummyNativeFunction_cannot_fail (env thisObj : CPtr) (mem : Nat → Int) :
    execStmt env thisObj 1 dummyNativeFunctionBody mem =
        Except.ok (mem, some 0) ∧
    ∀ msg : String,
        execStmt env thisObj 1 dummyNativeFunctionBody mem ≠ Except.error msg :=
  ⟨rfl, fun _ h => by simp [execStmt, dummyNativeFunctionBody, evalExpr] at h⟩

/-- C4: the returned value is the 32-bit signed integer zero: it equals
`0`, lies in the `jint` range `[-2^31, 2^31)`, and is its own residue
modulo `2^32`, so no overflow occurs. -/
theorem dummyNativeFunction_jint_zero (env : JNIEnvPtr) (thisObj : JObject) :
    Java_com_com_penumbraos_pinitddummy32_dummyNativeFunction env thisObj = 0 ∧
    -(2 ^ 31) ≤
      Java_com_com_penumbraos_pinitddummy32_dummyNativeFunction env thisObj ∧
    Java_com_com_penumbraos_pinitddummy32_dummyNativeFunction env thisObj <
      2 ^ 31 ∧
    Java_com_com_penumbraos_pinitddummy32_dummyNativeFunction env thisObj %
        2 ^ 32 =
      Java_com_com_penumbraos_pinitddummy32_dummyNativeFunction env thisObj := by
  refine ⟨rfl, ?_, ?_, ?_⟩ <;>
    norm_num [Java_com_com_penumbraos_pinitddummy32_dummyNativeFunction]

/-- C5: the result does not depend on either parameter: any two
invocations, with arbitrary and possibly different `JNIEnv*` pointers
and receiver objects, return equal results. -/
theorem dummyNativeFunction_noninterference
    (env1 env2 : JNIEnvPtr) (thisObj1 thisObj2 : JObject) :
    Java_com_com_penumbraos_pinitddummy32_dummyNativeFunction env1 thisObj1 =
      Java_com_com_penumbraos_pinitddummy32_dummyNativeFunction env2 thisObj2 :=
  rfl

/-- C6: the entry point terminates on every input: its body contains no
loop, and one unit of fuel already suffices for the executor to finish
with result `0`, uniformly in any extra fuel. -/
theorem dummyNativeFunction_terminates :
    stmtHasLoop dummyNativeFunctionBody = false ∧
    ∀ (env thisObj : CPtr) (mem : Nat → Int) (fuel : Nat),
        execStmt env thisObj (fuel + 1) dummyNativeFunctionBody mem =
          Except.ok (mem, some 0) :=
  ⟨rfl, fun _ _ _ _ => rfl⟩

/-- C7: the public interface is exactly one exported entry point, and
its body is the single straight-line statement `return 0;`, containing
no branch. -/
theorem nativeLib_single_export_straight_line :
    nativeLibExports =
        ["Java_com_com_penumbraos_pinitddummy32_dummyNativeFunction"] ∧
    nativeLibExports.length = 1 ∧
    dummyNativeFunctionBody = CStmt.ret (CExpr.intLit 0) ∧
    stmtHasBranch dummyNativeFunctionBody = false :=
  ⟨rfl, rfl, rfl, rfl⟩

/-- C8: any interleaved schedule of invocations over a shared state is
race-free: the final state equals the initial state regardless of the
schedule, and every invocation in the schedule returns `0`. -/
theorem dummyNativeFunction_schedule_race_free
    (S : Type) (σ : S) (calls : List (JNIEnvPtr × JObject)) :
    runSchedule σ calls = (σ, List.replicate calls.length 0) := by
  induction calls with
  | nil => rfl
  | cons c rest ih =>
    obtain ⟨env, thisObj⟩ := c
    simp [runSchedule, dummyNativeFunctionSt, ih, List.replicate_succ]

/-- C9: the entry point never reads or dereferences its pointer
parameters — its body mentions neither parameter and contains no
dereference — so the call is safe even when both pointers are null and
still returns `0`. -/
theorem dummyNativeFunction_null_safe :
    stmtUsesParam dummyNativeFunctionBody = false ∧
    stmtHasDeref dummyNativeFunctionBody = false ∧
    Java_com_com_penumbraos_pinitddummy32_dummyNativeFunction none none = 0 ∧
    ∀ mem : Nat → Int,
        execStmt none none 1 dummyNativeFunctionBody mem =
          Except.ok (mem, some 0) :=
  ⟨rfl, rfl, rfl, fun _ => rfl⟩

/-- C10: the call is idempotent in state and result: for every starting
state, performing it `n + 1` times yields the same final state and the
same result as performing it once, and its state transformer is the
identity. -/
theorem dummyNativeFunction_idempotent
    (S : Type) (σ : S) (env : JNIEnvPtr) (thisObj : JObject) (n : Nat) :
    callNTimes env thisObj (n + 1) σ = dummyNativeFunctionSt σ env thisObj ∧
    (dummyNativeFunctionSt σ env thisObj).1 = σ := by
  refine ⟨?_, rfl⟩
  induction n with
  | zero => rfl
  | succ m ih => simpa [callNTimes, dummyNativeFunctionSt] using ih
